import Mathlib

/-!
Shallow embedding of the structured-data extraction engine of
`src/pdf_processor.py` (class `PDFProcessor`): the coordinate, date and
site extractors together with the shared site-name inference helper.

The Python code drives everything through `re` patterns scanned with
`finditer`/`search`.  We embed those patterns as abstract syntax trees
(`RE`) and execute them with a fuel-indexed backtracking matcher whose
alternative ordering reproduces Python's leftmost-first semantics:
alternation prefers the left branch, greedy quantifiers prefer the longer
repetition, lazy quantifiers the shorter one, and `finditer` yields
non-overlapping matches scanning start positions left to right.
Numbers parsed from captures are modelled as rationals (for `float`) and
naturals (for `int`); `round(x, 6)` is modelled as half-even rounding on
rationals.
-/

namespace ArchRag

/-- True when `c` lies in one of the inclusive character ranges. -/
def inRanges (c : Char) (rs : List (Char × Char)) : Bool :=
  rs.any (fun p => decide (p.1 ≤ c) && decide (c ≤ p.2))

/-- Regex abstract syntax.  `cls true rs` is a negated character class;
`sq` is sequencing; `alt2` prefers its left branch; `quesG`/`starG` are
greedy, `quesL`/`starL` lazy; `grp` is a numbered capture group
(`gopen`/`gclose` are its internal markers); `wb` is the word boundary
assertion; `eosML` is `$` under `re.MULTILINE`, `eosStr` plain `$`. -/
inductive RE : Type where
  | cls (neg : Bool) (rs : List (Char × Char))
  | sq (l : List RE)
  | alt2 (a b : RE)
  | quesG (a : RE)
  | quesL (a : RE)
  | starG (a : RE)
  | starL (a : RE)
  | grp (n : Nat) (a : RE)
  | gopen (n : Nat)
  | gclose (n : Nat)
  | wb
  | eosML
  | eosStr

/-- Word characters, as in Python's `\w` restricted to ASCII input. -/
def isWordChar (c : Char) : Bool :=
  inRanges c [('A', 'Z'), ('a', 'z'), ('0', '9'), ('_', '_')]

/-- The backtracking matcher.  `t` is the full text, the agenda is the
list of regex items still to be matched, `pos` the current offset into
`t`, `s` the suffix of `t` at `pos`, and `gs`/`ge` the capture-group
start/end offsets recorded so far (latest first).  Returns the end
position and captures of the first match in Python's preference order.
Fuel only bounds the recursion depth; it is chosen large enough in
`tryMatchAt` that it never runs out on the inputs considered here. -/
def mrun (t : List Char) :
    Nat → List RE → Nat → List Char → List (Nat × Nat) → List (Nat × Nat) →
    Option (Nat × List (Nat × Nat) × List (Nat × Nat))
  | 0, _, _, _, _, _ => none
  | _ + 1, [], pos, _, gs, ge => some (pos, gs, ge)
  | f + 1, r :: rest, pos, s, gs, ge =>
    match r with
    | .cls neg rs =>
      match s with
      | [] => none
      | c :: s1 =>
        if inRanges c rs ≠ neg then mrun t f rest (pos + 1) s1 gs ge else none
    | .sq l => mrun t f (l ++ rest) pos s gs ge
    | .alt2 a b =>
      mrun t f (a :: rest) pos s gs ge <|> mrun t f (b :: rest) pos s gs ge
    | .quesG a => mrun t f (a :: rest) pos s gs ge <|> mrun t f rest pos s gs ge
    | .quesL a => mrun t f rest pos s gs ge <|> mrun t f (a :: rest) pos s gs ge
    | .starG a =>
      mrun t f (a :: .starG a :: rest) pos s gs ge <|> mrun t f rest pos s gs ge
    | .starL a =>
      mrun t f rest pos s gs ge <|> mrun t f (a :: .starL a :: rest) pos s gs ge
    | .grp n a => mrun t f (.gopen n :: a :: .gclose n :: rest) pos s gs ge
    | .gopen n => mrun t f rest pos s ((n, pos) :: gs) ge
    | .gclose n => mrun t f rest pos s gs ((n, pos) :: ge)
    | .wb =>
      let before : Bool :=
        match pos with
        | 0 => false
        | p + 1 =>
          match t.get? p with
          | some c => isWordChar c
          | none => false
      let after : Bool :=
        match s with
        | [] => false
        | c :: _ => isWordChar c
      if before ≠ after then mrun t f rest pos s gs ge else none
    | .eosML =>
      match s with
      | [] => mrun t f rest pos s gs ge
      | c :: _ => if c = '\n' then mrun t f rest pos s gs ge else none
    | .eosStr =>
      match s with
      | [] => mrun t f rest pos s gs ge
      | [c] => if c = '\n' then mrun t f rest pos s gs ge else none
      | _ => none

/-- One `re` match: span `[ms, me)` plus capture-group offsets. -/
structure MatchData where
  ms : Nat
  me : Nat
  gs : List (Nat × Nat)
  ge : List (Nat × Nat)
deriving DecidableEq

/-- First value bound to key `n` (captures shadow left to right). -/
def assocFind (n : Nat) : List (Nat × Nat) → Option Nat
  | [] => none
  | (k, v) :: rest => if k = n then some v else assocFind n rest

/-- Text of capture group `n`, or `none` when the group never matched
(Python's `match.group(n) is None`). -/
def matchGroup (t : List Char) (m : MatchData) (n : Nat) : Option (List Char) :=
  match assocFind n m.gs, assocFind n m.ge with
  | some s, some e => some ((t.drop s).take (e - s))
  | _, _ => none

/-- Fuel bound for one match attempt; generous for the pattern sizes and
text lengths that occur here. -/
def fuelFor (t : List Char) : Nat := (t.length + 2) * 600

/-- Attempt to match `pat` at offset `pos` of `t` (whose suffix is `s`). -/
def tryMatchAt (pat : List RE) (t : List Char) (pos : Nat) (s : List Char) :
    Option MatchData :=
  match mrun t (fuelFor t) pat pos s [] [] with
  | some (e, gs, ge) => some ⟨pos, e, gs, ge⟩
  | none => none

/-- Scan of `re.finditer`: try every start position left to right and
resume after each (non-empty) match, so matches never overlap. -/
def finditerAux (pat : List RE) (t : List Char) :
    Nat → Nat → List Char → List MatchData
  | 0, _, _ => []
  | f + 1, pos, s =>
    match tryMatchAt pat t pos s with
    | some m =>
      if m.me > pos then m :: finditerAux pat t f m.me (t.drop m.me)
      else
        match s with
        | [] => [m]
        | _ :: s1 => m :: finditerAux pat t f (pos + 1) s1
    | none =>
      match s with
      | [] => []
      | _ :: s1 => finditerAux pat t f (pos + 1) s1

/-- All matches of `pat` in `t`, in scan order (Python `re.finditer`). -/
def finditer (pat : List RE) (t : List Char) : List MatchData :=
  finditerAux pat t (t.length + 2) 0 t

/-- First match of `pat` in `t`, if any (Python `re.search`). -/
def reSearch (pat : List RE) (t : List Char) : Option MatchData :=
  (finditer pat t).head?

/-! Pattern-building helpers.  Patterns carrying `re.IGNORECASE` are
transcribed with both-case character classes (`litStrCI`, `alpha`, the
explicit `NSns`-style classes); digits and punctuation are unaffected. -/

/-- Single literal character. -/
def one (c : Char) : RE := .cls false [(c, c)]

/-- Character class listing each member explicitly. -/
def oneOf (s : String) : RE := .cls false (s.data.map fun c => (c, c))

/-- Negated character class. -/
def noneOf (s : String) : RE := .cls true (s.data.map fun c => (c, c))

/-- Case-sensitive literal string. -/
def litStr (s : String) : RE := .sq (s.data.map one)

/-- Literal string under `re.IGNORECASE`: each letter matches either case. -/
def litStrCI (s : String) : RE :=
  .sq (s.data.map fun c => .cls false [(c.toLower, c.toLower), (c.toUpper, c.toUpper)])

/-- Python `\d` (ASCII). -/
def digit : RE := .cls false [('0', '9')]

/-- Ranges of Python `\s` (ASCII): space, tab, newline, return, vertical
tab, form feed. -/
def wsRanges : List (Char × Char) :=
  [(' ', ' '), ('\t', '\t'), ('\n', '\n'), ('\r', '\r'),
   (Char.ofNat 11, Char.ofNat 11), (Char.ofNat 12, Char.ofNat 12)]

/-- Python `\s`. -/
def wsp : RE := .cls false wsRanges

/-- Python `[,\s]`. -/
def commaWs : RE := .cls false ((',', ',') :: wsRanges)

/-- Python `[:\s]`. -/
def colonWs : RE := .cls false ((':', ':') :: wsRanges)

/-- Letter ranges `A-Za-z` (also `[A-Z]` under `re.IGNORECASE`). -/
def alphaRanges : List (Char × Char) := [('A', 'Z'), ('a', 'z')]

/-- Python `[A-Za-z]`. -/
def alpha : RE := .cls false alphaRanges

/-- Greedy plus: `r+`. -/
def plusG (r : RE) : RE := .sq [r, .starG r]

/-- Lazy plus: `r+?`. -/
def plusL (r : RE) : RE := .sq [r, .starL r]

/-- Greedy `\d{1,2}`. -/
def d12 : RE := .sq [digit, .quesG digit]

/-- Greedy `\d{1,3}`. -/
def d13 : RE := .sq [digit, .quesG (.sq [digit, .quesG digit])]

/-- Greedy `\d{1,4}`. -/
def d14 : RE := .sq [digit, .quesG (.sq [digit, .quesG (.sq [digit, .quesG digit])])]

/-- Greedy `\d{3,4}`. -/
def d34 : RE := .sq [digit, digit, digit, .quesG digit]

/-- Greedy `\d{2,6}`. -/
def d26 : RE :=
  .sq [digit, digit,
       .quesG (.sq [digit, .quesG (.sq [digit, .quesG (.sq [digit, .quesG digit])])])]

/-! The coordinate patterns of `extract_coordinates`
(`src/pdf_processor.py`).  Group numbers follow the order of the named
groups in the source regexes. -/

/-- Latitude capture `-?\d{1,2}\.?\d*` of pattern 1. -/
def latNum : RE := .sq [.quesG (one '-'), d12, .quesG (one '.'), .starG digit]

/-- Longitude capture `-?\d{1,3}\.?\d*` of pattern 1. -/
def lonNum : RE := .sq [.quesG (one '-'), d13, .quesG (one '.'), .starG digit]

/-- Pattern 1, decimal degrees with hemisphere letters (IGNORECASE):
`(?P<lat>-?\d{1,2}\.?\d*)\s*°?\s*[,\s]*(?P<lat_dir>[NS])[,\s]*`
`(?P<lon>-?\d{1,3}\.?\d*)\s*°?\s*[,\s]*(?P<lon_dir>[EW])`. -/
def decimal_with_dirs : List RE :=
  [.grp 1 latNum, .starG wsp, .quesG (one '°'), .starG wsp, .starG commaWs,
   .grp 2 (oneOf "NSns"), .starG commaWs,
   .grp 3 lonNum, .starG wsp, .quesG (one '°'), .starG wsp, .starG commaWs,
   .grp 4 (oneOf "EWew")]

/-- Class `[\'′]` (ASCII apostrophe or prime). -/
def minuteMark : RE :=
  .cls false [(Char.ofNat 39, Char.ofNat 39), ('′', '′')]

/-- Class `[\"″]` (ASCII double quote or double prime). -/
def secondMark : RE :=
  .cls false [(Char.ofNat 34, Char.ofNat 34), ('″', '″')]

/-- Seconds capture `\d{1,2}(?:\.\d+)?`. -/
def secNum : RE := .sq [d12, .quesG (.sq [one '.', plusG digit])]

/-- Pattern 2, degrees-minutes-seconds (IGNORECASE), groups numbered
lat_deg 1, lat_min 2, lat_sec 3, lat_dir 4, lon_deg 5, lon_min 6,
lon_sec 7, lon_dir 8. -/
def dms_pattern : List RE :=
  [.quesG (.alt2 (litStrCI "N") (.alt2 (litStrCI "S")
     (.alt2 (litStrCI "North") (litStrCI "South")))),
   .starG wsp, .grp 1 d12, one '°', .starG wsp, .grp 2 d12, minuteMark,
   .starG wsp, .grp 3 secNum, .quesG secondMark, .starG wsp,
   .grp 4 (oneOf "NSns"), plusG commaWs,
   .quesG (.alt2 (litStrCI "E") (.alt2 (litStrCI "W")
     (.alt2 (litStrCI "East") (litStrCI "West")))),
   .starG wsp, .grp 5 d13, one '°', .starG wsp, .grp 6 d12, minuteMark,
   .starG wsp, .grp 7 secNum, .quesG secondMark, .starG wsp,
   .grp 8 (oneOf "EWew")]

/-- Pattern 3, bare decimal pairs:
`(?P<lat>-?\d{1,2}\.\d{2,6})[,\s]+(?P<lon>-?\d{1,3}\.\d{2,6})`. -/
def simple_decimal : List RE :=
  [.grp 1 (.sq [.quesG (one '-'), d12, one '.', d26]), plusG commaWs,
   .grp 2 (.sq [.quesG (one '-'), d13, one '.', d26])]

/-! The date patterns of `extract_dates`. -/

/-- A modern year `(?:18|19|20)\d{2}`. -/
def yr1820 : RE :=
  .sq [.alt2 (litStr "18") (.alt2 (litStr "19") (litStr "20")), digit, digit]

/-- Pattern 1, modern CE ranges (IGNORECASE):
`(?:from|between|during)?\s*(?P<start>(?:18|19|20)\d{2})\s*(?:to|-|–)\s*`
`(?P<end>(?:18|19|20)\d{2})\b`. -/
def modern_range_pattern : List RE :=
  [.quesG (.alt2 (litStrCI "from") (.alt2 (litStrCI "between") (litStrCI "during"))),
   .starG wsp, .grp 1 yr1820, .starG wsp,
   .alt2 (litStrCI "to") (.alt2 (one '-') (one '–')), .starG wsp,
   .grp 2 yr1820, .wb]

/-- The era suffix `(?:BCE|BC|B\.C\.|B\.C\.E\.)` (IGNORECASE). -/
def bceTail : RE :=
  .alt2 (litStrCI "BCE") (.alt2 (litStrCI "BC")
    (.alt2 (litStrCI "B.C.") (litStrCI "B.C.E.")))

/-- Pattern 2, BCE ranges:
`(?P<start>\d{3,4})\s*(?:-|–)\s*(?P<end>\d{3,4})\s*(?:BCE|BC|B\.C\.|B\.C\.E\.)`. -/
def bce_range_pattern : List RE :=
  [.grp 1 d34, .starG wsp, .alt2 (one '-') (one '–'), .starG wsp,
   .grp 2 d34, .starG wsp, bceTail]

/-- Pattern 3, single BCE years:
`\b(?P<year>\d{3,4})\s*(?:BCE|BC|B\.C\.|B\.C\.E\.)\b`. -/
def bce_single_pattern : List RE :=
  [.wb, .grp 1 d34, .starG wsp, bceTail, .wb]

/-- Pattern 4, contextual season/fieldwork mentions (IGNORECASE):
`(?:summer|winter|spring|fall|autumn|field\s+season|excavated|surveyed|dated)`
`\s+(?:in\s+)?(?P<year>(?:18|19|20)\d{2})\b`. -/
def contextual_date_pattern : List RE :=
  [.alt2 (litStrCI "summer") (.alt2 (litStrCI "winter") (.alt2 (litStrCI "spring")
     (.alt2 (litStrCI "fall") (.alt2 (litStrCI "autumn")
       (.alt2 (.sq [litStrCI "field", plusG wsp, litStrCI "season"])
         (.alt2 (litStrCI "excavated") (.alt2 (litStrCI "surveyed") (litStrCI "dated")))))))),
   plusG wsp, .quesG (.sq [litStrCI "in", plusG wsp]), .grp 1 yr1820, .wb]

/-- Pattern 5, bare modern years: `\b(?P<year>(?:18|19|20)\d{2})\b`. -/
def year_pattern : List RE :=
  [.wb, .grp 1 yr1820, .wb]

/-- The guard pattern `UTM|Zone|\d{6,}` that `extract_dates` runs
(case-sensitively) over the ±5-character neighbourhood of a bare-year
match. -/
def utm_check_pattern : List RE :=
  [.alt2 (litStr "UTM") (.alt2 (litStr "Zone")
    (.sq [digit, digit, digit, digit, digit, digit, .starG digit]))]

/-! The site patterns of `extract_sites` (all IGNORECASE | MULTILINE)
and of `_extract_site_name_from_context` (IGNORECASE only). -/

/-- Class `[A-Za-z\s\-]` of site-name characters. -/
def nameCls : RE := .cls false (alphaRanges ++ wsRanges ++ [('-', '-')])

/-- Site Extractor pattern 1:
`Site\s+(?P<num>\d+)[:\s]+(?P<name>[A-Za-z][A-Za-z\s\-]+?)(?:[,\s\.]|$)`. -/
def site_pattern1 : List RE :=
  [litStrCI "Site", plusG wsp, .grp 1 (plusG digit), plusG colonWs,
   .grp 2 (.sq [alpha, plusL nameCls]),
   .alt2 (.cls false ((',', ',') :: ('.', '.') :: wsRanges)) .eosML]

/-- Site Extractor pattern 2 (also used verbatim by the inference
helper): `([A-Z]{2,4}[-]?\d{1,4})\s*\(([^)]+)\)`. -/
def site_pattern2 : List RE :=
  [.grp 1 (.sq [alpha, alpha, .quesG (.sq [alpha, .quesG alpha]),
                .quesG (one '-'), d14]),
   .starG wsp, one '(', .grp 2 (plusG (noneOf ")")), one ')']

/-- Identifier fragment `[A-Z]?[-]?\d+` of the trench/locus patterns. -/
def idFrag : RE := .sq [.quesG alpha, .quesG (one '-'), plusG digit]

/-- Site Extractor trench pattern: `Trench\s+([A-Z]?[-]?\d+)`. -/
def trench_pattern : List RE := [litStrCI "Trench", plusG wsp, .grp 1 idFrag]

/-- Site Extractor locus pattern: `Locus\s+([A-Z]?[-]?\d+)`. -/
def locus_pattern : List RE := [litStrCI "Locus", plusG wsp, .grp 1 idFrag]

/-- Mound pattern (used by `extract_sites` and as inference pattern 4):
`Mound\s+([A-Z])\s+at\s+Site\s+(\d+)`. -/
def mound_pattern : List RE :=
  [litStrCI "Mound", plusG wsp, .grp 1 alpha, plusG wsp, litStrCI "at",
   plusG wsp, litStrCI "Site", plusG wsp, .grp 2 (plusG digit)]

/-- Inference pattern 1; it differs from `site_pattern1` in the name
terminator (`(?:[,\s]|$)`, no period) and in `$` not being MULTILINE:
`Site\s+(?P<num>\d+)[:\s]+(?P<name>[A-Za-z][A-Za-z\s\-]+?)(?:[,\s]|$)`. -/
def isn_pattern1 : List RE :=
  [litStrCI "Site", plusG wsp, .grp 1 (plusG digit), plusG colonWs,
   .grp 2 (.sq [alpha, plusL nameCls]),
   .alt2 (.cls false ((',', ',') :: wsRanges)) .eosStr]

/-- Inference pattern 3: `(Trench|Locus|Mound)\s+([A-Z]?[-]?\d+)`. -/
def isn_pattern3 : List RE :=
  [.grp 1 (.alt2 (litStrCI "Trench") (.alt2 (litStrCI "Locus") (litStrCI "Mound"))),
   plusG wsp, .grp 2 idFrag]

/-! Numeric conversion of captured text.  `parseNat` models Python
`int()` and `parseQ` models Python `float()` on the shapes the capture
groups can produce; both return `none` on malformed input, which the
extractors turn into a skip of that match (the `except (ValueError,
AttributeError): continue` arms in the source). -/

/-- ASCII digit test. -/
def isDigitCh (c : Char) : Bool := decide ('0' ≤ c) && decide (c ≤ '9')

/-- Numeric value of a digit string. -/
def digitsToNat (l : List Char) : Nat :=
  l.foldl (fun a c => a * 10 + (c.toNat - 48)) 0

/-- Python `int()` restricted to plain digit strings. -/
def parseNat (l : List Char) : Option Nat :=
  if l ≠ [] ∧ l.all isDigitCh then some (digitsToNat l) else none

/-- Rational division through `Rat.divInt`.  Batteries marks the `Rat`
arithmetic operations `@[irreducible]`, which blocks the evaluation that
`decide` proofs need; `Rat.divInt` normalizes, so these helpers compute
the same values as the ordinary field operations. -/
def qDiv (a b : ℚ) : ℚ := Rat.divInt (a.num * (b.den : ℤ)) ((a.den : ℤ) * b.num)

/-- Rational addition through `Rat.divInt` (see `qDiv`). -/
def qAdd (a b : ℚ) : ℚ :=
  Rat.divInt (a.num * (b.den : ℤ) + b.num * (a.den : ℤ)) ((a.den : ℤ) * (b.den : ℤ))

/-- Rational multiplication through `Rat.divInt` (see `qDiv`). -/
def qMul (a b : ℚ) : ℚ := Rat.divInt (a.num * b.num) ((a.den : ℤ) * (b.den : ℤ))

/-- Rational subtraction through `Rat.divInt` (see `qDiv`). -/
def qSub (a b : ℚ) : ℚ := qAdd a (-b)

/-- The integer `n` as a rational. -/
def qInt (n : ℤ) : ℚ := Rat.divInt n 1

/-- Python `float()` on an optional sign, integer digits, optional dot,
fraction digits (at least one digit overall), read exactly as a
rational: `ip.fr` denotes `(ip * 10 ^ |fr| + fr) / 10 ^ |fr|`. -/
def parseQ (l : List Char) : Option ℚ :=
  let (neg, l1) :=
    match l with
    | '-' :: rest => (true, rest)
    | _ => (false, l)
  let ip := l1.takeWhile isDigitCh
  let r1 := l1.drop ip.length
  let mk : ℚ → Option ℚ := fun q => some (if neg then -q else q)
  match r1 with
  | [] => if ip = [] then none else mk (qInt (digitsToNat ip))
  | '.' :: fr =>
    if fr.all isDigitCh ∧ (ip ≠ [] ∨ fr ≠ []) then
      mk (Rat.divInt
        ((digitsToNat ip * 10 ^ fr.length + digitsToNat fr : ℕ) : ℤ)
        (((10 ^ fr.length : ℕ) : ℤ)))
    else none
  | _ => none

/-- Round to the nearest integer, ties to even (Python `round`). -/
def rndHalfEven (q : ℚ) : ℤ :=
  let f : ℤ := q.floor
  let r : ℚ := qSub q (qInt f)
  if r < Rat.divInt 1 2 then f
  else if Rat.divInt 1 2 < r then f + 1
  else if f % 2 = 0 then f else f + 1

/-- Python `round(x, 6)` on the rational model. -/
def round6 (q : ℚ) : ℚ := Rat.divInt (rndHalfEven (qMul q (qInt 1000000))) 1000000

/-- Characters removed by Python `str.strip()` (ASCII whitespace). -/
def isStripWs (c : Char) : Bool := inRanges c wsRanges

/-- Python `str.strip()`. -/
def pyStrip (l : List Char) : List Char :=
  ((l.dropWhile isStripWs).reverse.dropWhile isStripWs).reverse

/-- The context snippet around a match:
`text[max(0, ms - cw) : min(len, me + cw)].replace("\n", " ").strip()`. -/
def snippet (t : List Char) (cw ms me : Nat) : String :=
  String.mk (pyStrip (((t.drop (ms - cw)).take (min t.length (me + cw) - (ms - cw))).map
    (fun c => if c = '\n' then ' ' else c)))

/-! The record types of §3 of the design: latitude/longitude as signed
decimal degrees (rationals), years as signed integers with BCE negative. -/

/-- A coordinate record produced by `extract_coordinates`. -/
structure CoordinateRecord where
  latitude : ℚ
  longitude : ℚ
  context : String
  site_name : Option String
deriving DecidableEq

/-- A date record produced by `extract_dates`. -/
structure DateRecord where
  label : String
  start_year : ℤ
  end_year : ℤ
  context : String
  site_name : Option String
deriving DecidableEq

/-- A site record produced by `extract_sites`. -/
structure SiteRecord where
  site_name : String
  site_type : String
  context : String
deriving DecidableEq

/-- Text of group `n`, defaulting to empty.  Along the paths where this
is used the group is guaranteed to have participated in the match, so
the default never actually fires (in Python the group text is embedded
in an f-string directly). -/
def groupD (t : List Char) (m : MatchData) (n : Nat) : List Char :=
  (matchGroup t m n).getD []

/-- The shared helper `_extract_site_name_from_context`: try the four
structural patterns in priority order and return the first formatted
match, or `none`. -/
def extract_site_name_from_context (context : List Char) : Option String :=
  match reSearch isn_pattern1 context with
  | some m =>
    some ("Site " ++ String.mk (groupD context m 1) ++ ": "
          ++ String.mk (pyStrip (groupD context m 2)))
  | none =>
  match reSearch site_pattern2 context with
  | some m =>
    some (String.mk (groupD context m 1) ++ " (" ++ String.mk (groupD context m 2) ++ ")")
  | none =>
  match reSearch isn_pattern3 context with
  | some m =>
    some (String.mk (groupD context m 1) ++ " " ++ String.mk (groupD context m 2))
  | none =>
  match reSearch mound_pattern context with
  | some m =>
    some ("Mound " ++ String.mk (groupD context m 1) ++ " at Site "
          ++ String.mk (groupD context m 2))
  | none => none

/-- Model of `_dms_to_decimal`: `degrees + minutes/60 + seconds/3600`, negated
for hemisphere `S` or `W` (direction already upper-cased by caller). -/
def dms_to_decimal (degrees minutes : ℕ) (seconds : ℚ) (direction : List Char) : ℚ :=
  let dec : ℚ :=
    qAdd (qAdd (qInt degrees) (qDiv (qInt minutes) (qInt 60))) (qDiv seconds (qInt 3600))
  if direction = ['S'] ∨ direction = ['W'] then -dec else dec

/-! Per-match candidate builders.  Each mirrors one loop body of the
source: convert the captures (skip the match on failure), apply the
hemisphere/era normalisation, apply the bounds check, and build the
record with its context snippet and inferred site name.  The duplicate
check of the source happens between the bounds check and the record
construction; since the record construction is pure, performing it
before the duplicate check (as `candStep` below does) is observationally
identical. -/

/-- Loop body of coordinate pattern 1 (decimal degrees with hemisphere
letters). -/
def coordCand1 (t : List Char) (cw : Nat) (m : MatchData) : Option CoordinateRecord :=
  match matchGroup t m 1, matchGroup t m 2, matchGroup t m 3, matchGroup t m 4 with
  | some latS, some latD, some lonS, some lonD =>
    match parseQ latS, parseQ lonS with
    | some lat0, some lon0 =>
      let lat := if latD.map Char.toUpper = ['S'] then -lat0 else lat0
      let lon := if lonD.map Char.toUpper = ['W'] then -lon0 else lon0
      if -90 ≤ lat ∧ lat ≤ 90 ∧ -180 ≤ lon ∧ lon ≤ 180 then
        let ctx := snippet t cw m.ms m.me
        some ⟨lat, lon, ctx, extract_site_name_from_context ctx.data⟩
      else none
    | _, _ => none
  | _, _, _, _ => none

/-- Loop body of coordinate pattern 2 (DMS). -/
def coordCand2 (t : List Char) (cw : Nat) (m : MatchData) : Option CoordinateRecord :=
  match matchGroup t m 1, matchGroup t m 2, matchGroup t m 3, matchGroup t m 4,
        matchGroup t m 5, matchGroup t m 6, matchGroup t m 7, matchGroup t m 8 with
  | some latDeg, some latMin, some latSec, some latD,
    some lonDeg, some lonMin, some lonSec, some lonD =>
    match parseNat latDeg, parseNat latMin, parseQ latSec,
          parseNat lonDeg, parseNat lonMin, parseQ lonSec with
    | some lad, some lam, some las, some lod, some lom, some los =>
      let lat := dms_to_decimal lad lam las (latD.map Char.toUpper)
      let lon := dms_to_decimal lod lom los (lonD.map Char.toUpper)
      if -90 ≤ lat ∧ lat ≤ 90 ∧ -180 ≤ lon ∧ lon ≤ 180 then
        let ctx := snippet t cw m.ms m.me
        some ⟨lat, lon, ctx, extract_site_name_from_context ctx.data⟩
      else none
    | _, _, _, _, _, _ => none
  | _, _, _, _, _, _, _, _ => none

/-- Loop body of coordinate pattern 3 (bare decimal pairs). -/
def coordCand3 (t : List Char) (cw : Nat) (m : MatchData) : Option CoordinateRecord :=
  match matchGroup t m 1, matchGroup t m 2 with
  | some latS, some lonS =>
    match parseQ latS, parseQ lonS with
    | some lat, some lon =>
      if -90 ≤ lat ∧ lat ≤ 90 ∧ -180 ≤ lon ∧ lon ≤ 180 then
        let ctx := snippet t cw m.ms m.me
        some ⟨lat, lon, ctx, extract_site_name_from_context ctx.data⟩
      else none
    | _, _ => none
  | _, _ => none

/-- Rounded dedup key `(round(lat, 6), round(lon, 6))`. -/
def ckey (r : CoordinateRecord) : ℚ × ℚ := (round6 r.latitude, round6 r.longitude)

/-- Dedup step shared by all first-occurrence-wins loops: skip the
candidate when its key was already seen, otherwise record the key and
append the record. -/
def dedupStep {α κ : Type} [DecidableEq κ] (key : α → κ)
    (st : List κ × List α) (c : α) : List κ × List α :=
  if key c ∈ st.1 then st else (key c :: st.1, st.2 ++ [c])

/-- One loop iteration: a failed candidate (malformed capture or bounds
reject) is skipped, a successful one goes through the dedup step. -/
def candStep {α κ : Type} [DecidableEq κ] (key : α → κ)
    (cand : MatchData → Option α) (st : List κ × List α) (m : MatchData) :
    List κ × List α :=
  match cand m with
  | none => st
  | some c => dedupStep key st c

/-- Model of `extract_coordinates`: the three record-producing pattern families
in their fixed order, sharing one `seen_coords` set.  The fourth (UTM)
family of the source only logs its matches and never touches `results`,
so it does not appear in the result computation. -/
def extract_coordinates (text : String) (context_window : Nat) : List CoordinateRecord :=
  let t := text.data
  let st1 := (finditer decimal_with_dirs t).foldl
    (candStep ckey (coordCand1 t context_window)) ([], [])
  let st2 := (finditer dms_pattern t).foldl
    (candStep ckey (coordCand2 t context_window)) st1
  let st3 := (finditer simple_decimal t).foldl
    (candStep ckey (coordCand3 t context_window)) st2
  st3.2

/-- Swap of `extract_dates` pattern 1: `if start_year > end_year: swap`. -/
def modern_range_normalize (s e : ℤ) : ℤ × ℤ := if s > e then (e, s) else (s, e)

/-- Swap of `extract_dates` pattern 2 on the raw BCE numbers:
`if start_year_bce < end_year_bce: swap`. -/
def bce_range_normalize (s e : ℕ) : ℕ × ℕ := if s < e then (e, s) else (s, e)

/-- Loop body of date pattern 1 (modern CE ranges). -/
def dateCand1 (t : List Char) (cw : Nat) (m : MatchData) : Option DateRecord :=
  match matchGroup t m 1, matchGroup t m 2 with
  | some sS, some eS =>
    match parseNat sS, parseNat eS with
    | some s0, some e0 =>
      let p := modern_range_normalize (s0 : ℤ) (e0 : ℤ)
      let ctx := snippet t cw m.ms m.me
      some ⟨toString p.1 ++ "-" ++ toString p.2, p.1, p.2, ctx,
            extract_site_name_from_context ctx.data⟩
    | _, _ => none
  | _, _ => none

/-- Loop body of date pattern 2 (BCE ranges); years are stored negated
and the label keeps the positive BCE numbers with an en dash. -/
def dateCand2 (t : List Char) (cw : Nat) (m : MatchData) : Option DateRecord :=
  match matchGroup t m 1, matchGroup t m 2 with
  | some sS, some eS =>
    match parseNat sS, parseNat eS with
    | some s0, some e0 =>
      let p := bce_range_normalize s0 e0
      let ctx := snippet t cw m.ms m.me
      some ⟨toString p.1 ++ "–" ++ toString p.2 ++ " BCE",
            -(p.1 : ℤ), -(p.2 : ℤ), ctx, extract_site_name_from_context ctx.data⟩
    | _, _ => none
  | _, _ => none

/-- Loop body of date pattern 3 (single BCE years). -/
def dateCand3 (t : List Char) (cw : Nat) (m : MatchData) : Option DateRecord :=
  match matchGroup t m 1 with
  | some yS =>
    match parseNat yS with
    | some y0 =>
      let y : ℤ := -(y0 : ℤ)
      let ctx := snippet t cw m.ms m.me
      some ⟨toString y0 ++ " BCE", y, y, ctx, extract_site_name_from_context ctx.data⟩
    | none => none
  | none => none

/-- Loop body of date pattern 4 (contextual season/fieldwork years). -/
def dateCand4 (t : List Char) (cw : Nat) (m : MatchData) : Option DateRecord :=
  match matchGroup t m 1 with
  | some yS =>
    match parseNat yS with
    | some y0 =>
      let ctx := snippet t cw m.ms m.me
      some ⟨toString y0, (y0 : ℤ), (y0 : ℤ), ctx, extract_site_name_from_context ctx.data⟩
    | none => none
  | none => none

/-- Loop body of date pattern 5 (bare modern years), including the
`UTM|Zone|\d{6,}` guard over `text[ms-5 : me+5]`.  The source runs the
subsumption check before this guard; both only decide whether the match
is skipped, so the order does not matter. -/
def dateCand5 (t : List Char) (cw : Nat) (m : MatchData) : Option DateRecord :=
  match matchGroup t m 1 with
  | some yS =>
    match parseNat yS with
    | some y0 =>
      let cc := (t.drop (m.ms - 5)).take (min t.length (m.me + 5) - (m.ms - 5))
      if (reSearch utm_check_pattern cc).isSome then none
      else
        let ctx := snippet t cw m.ms m.me
        some ⟨toString y0, (y0 : ℤ), (y0 : ℤ), ctx, extract_site_name_from_context ctx.data⟩
    | none => none
  | none => none

/-- Exact-pair dedup key `(start_year, end_year)` of the range families. -/
def dkey (r : DateRecord) : ℤ × ℤ := (r.start_year, r.end_year)

/-- One loop iteration of the single-year families (3-5): the candidate
year is dropped when it falls inside any already-collected record's
`[start_year, end_year]` interval (its year is `start_year = end_year`
of the candidate record); these families never touch `seen_ranges`. -/
def singleStep (cand : MatchData → Option DateRecord)
    (st : List (ℤ × ℤ) × List DateRecord) (m : MatchData) :
    List (ℤ × ℤ) × List DateRecord :=
  match cand m with
  | none => st
  | some r =>
    if st.2.any (fun q => decide (q.start_year ≤ r.start_year) &&
                          decide (r.start_year ≤ q.end_year)) then st
    else (st.1, st.2 ++ [r])

/-- The two range families of `extract_dates` (patterns 1 and 2), which
share the `seen_ranges` exact-pair dedup set. -/
def datesPhase12 (t : List Char) (cw : Nat) : List (ℤ × ℤ) × List DateRecord :=
  let st1 := (finditer modern_range_pattern t).foldl
    (candStep dkey (dateCand1 t cw)) ([], [])
  (finditer bce_range_pattern t).foldl (candStep dkey (dateCand2 t cw)) st1

/-- Model of `extract_dates`: the five pattern families in their fixed order. -/
def extract_dates (text : String) (context_window : Nat) : List DateRecord :=
  let t := text.data
  let st2 := datesPhase12 t context_window
  let st3 := (finditer bce_single_pattern t).foldl
    (singleStep (dateCand3 t context_window)) st2
  let st4 := (finditer contextual_date_pattern t).foldl
    (singleStep (dateCand4 t context_window)) st3
  let st5 := (finditer year_pattern t).foldl
    (singleStep (dateCand5 t context_window)) st4
  st5.2

/-- Loop body of site pattern 1: `f"Site {num}: {name.strip()}"`. -/
def siteCand1 (t : List Char) (m : MatchData) : Option SiteRecord :=
  match matchGroup t m 1, matchGroup t m 2 with
  | some num, some nm =>
    some ⟨"Site " ++ String.mk num ++ ": " ++ String.mk (pyStrip nm), "Site",
          snippet t 100 m.ms m.me⟩
  | _, _ => none

/-- Loop body of site pattern 2: `f"{g1} ({g2})"`. -/
def siteCand2 (t : List Char) (m : MatchData) : Option SiteRecord :=
  match matchGroup t m 1, matchGroup t m 2 with
  | some g1, some g2 =>
    some ⟨String.mk g1 ++ " (" ++ String.mk g2 ++ ")", "Site",
          snippet t 100 m.ms m.me⟩
  | _, _ => none

/-- Loop body of the trench pattern: `f"Trench {g1}"`. -/
def siteCand3 (t : List Char) (m : MatchData) : Option SiteRecord :=
  match matchGroup t m 1 with
  | some g1 => some ⟨"Trench " ++ String.mk g1, "Trench", snippet t 100 m.ms m.me⟩
  | none => none

/-- Loop body of the locus pattern: `f"Locus {g1}"`. -/
def siteCand4 (t : List Char) (m : MatchData) : Option SiteRecord :=
  match matchGroup t m 1 with
  | some g1 => some ⟨"Locus " ++ String.mk g1, "Locus", snippet t 100 m.ms m.me⟩
  | none => none

/-- Loop body of the mound pattern: `f"Mound {g1} at Site {g2}"`. -/
def siteCand5 (t : List Char) (m : MatchData) : Option SiteRecord :=
  match matchGroup t m 1, matchGroup t m 2 with
  | some g1, some g2 =>
    some ⟨"Mound " ++ String.mk g1 ++ " at Site " ++ String.mk g2, "Mound",
          snippet t 100 m.ms m.me⟩
  | _, _ => none

/-- Exact site-name dedup key of `extract_sites`. -/
def skey (r : SiteRecord) : String := r.site_name

/-- Model of `extract_sites`: patterns 1 and 2, then the Trench/Locus/Mound loop,
all sharing one `seen_sites` set; the context window is fixed at 100. -/
def extract_sites (text : String) : List SiteRecord :=
  let t := text.data
  let st1 := (finditer site_pattern1 t).foldl (candStep skey (siteCand1 t)) ([], [])
  let st2 := (finditer site_pattern2 t).foldl (candStep skey (siteCand2 t)) st1
  let st3 := (finditer trench_pattern t).foldl (candStep skey (siteCand3 t)) st2
  let st4 := (finditer locus_pattern t).foldl (candStep skey (siteCand4 t)) st3
  let st5 := (finditer mound_pattern t).foldl (candStep skey (siteCand5 t)) st4
  st5.2

/-- The stateful `PDFProcessor` object as far as the extractors see it:
`pdf_text` stands for the deterministic result of `extract_text()` (PDF
text extraction is an external collaborator treated as a black box by
the design), and `full_text` is the cache that `_ensure_full_text`
populates on first use (initially `""`). -/
structure PDFProcessor where
  pdf_text : String
  full_text : String
deriving DecidableEq

/-- Model of `_ensure_full_text`: populate the cache if it is empty (Python
`if not self.full_text`), then return it together with the updated
object state. -/
def ensure_full_text (p : PDFProcessor) : String × PDFProcessor :=
  if p.full_text = "" then (p.pdf_text, { p with full_text := p.pdf_text })
  else (p.full_text, p)

/-- Stateful `extract_coordinates` method: reads the cached text. -/
def extract_coordinates_st (p : PDFProcessor) (cw : Nat) :
    List CoordinateRecord × PDFProcessor :=
  let r := ensure_full_text p
  (extract_coordinates r.1 cw, r.2)

/-- Stateful `extract_dates` method. -/
def extract_dates_st (p : PDFProcessor) (cw : Nat) :
    List DateRecord × PDFProcessor :=
  let r := ensure_full_text p
  (extract_dates r.1 cw, r.2)

/-- Stateful `extract_sites` method. -/
def extract_sites_st (p : PDFProcessor) : List SiteRecord × PDFProcessor :=
  let r := ensure_full_text p
  (extract_sites r.1, r.2)

/-- All bounds-passing coordinate candidates in family-then-scan order,
before deduplication. -/
def coordCandidates (text : String) (cw : Nat) : List CoordinateRecord :=
  let t := text.data
  (finditer decimal_with_dirs t).filterMap (coordCand1 t cw)
  ++ (finditer dms_pattern t).filterMap (coordCand2 t cw)
  ++ (finditer simple_decimal t).filterMap (coordCand3 t cw)

/-- All range candidates of the two range families of `extract_dates`,
in family-then-scan order, before deduplication. -/
def dateRangeCandidates (text : String) (cw : Nat) : List DateRecord :=
  let t := text.data
  (finditer modern_range_pattern t).filterMap (dateCand1 t cw)
  ++ (finditer bce_range_pattern t).filterMap (dateCand2 t cw)

/-! Structural lemmas about the first-occurrence-wins loops. -/

/-- A `candStep` fold over matches is a `dedupStep` fold over the
successful candidates. -/
theorem foldl_candStep {α κ : Type} [DecidableEq κ] (key : α → κ)
    (cand : MatchData → Option α) :
    ∀ (ms : List MatchData) (st : List κ × List α),
      ms.foldl (candStep key cand) st = (ms.filterMap cand).foldl (dedupStep key) st := by
  intro ms
  induction ms with
  | nil => intro st; rfl
  | cons m ms ih =>
    intro st
    cases h : cand m with
    | none => simp [List.foldl_cons, candStep, h, List.filterMap_cons, ih]
    | some c => simp [List.foldl_cons, candStep, h, List.filterMap_cons, ih]

/-- In a `dedupStep` fold, the records kept for a key are the previously
kept ones followed by the first not-yet-seen candidate with that key. -/
theorem dedup_filter_take {α κ : Type} [DecidableEq κ] (key : α → κ) :
    ∀ (l : List α) (seen : List κ) (res : List α),
      (∀ k2, k2 ∈ seen ↔ k2 ∈ res.map key) → ∀ k : κ,
      ((l.foldl (dedupStep key) (seen, res)).2).filter (fun r => decide (key r = k)) =
        res.filter (fun r => decide (key r = k)) ++
          (l.filter (fun r => decide (key r = k))).take (if k ∈ seen then 0 else 1) := by
  intro l
  induction l with
  | nil => intro seen res _ k; simp
  | cons c l ih =>
    intro seen res hinv k
    rw [List.foldl_cons]
    by_cases hc : key c ∈ seen
    · rw [show dedupStep key (seen, res) c = (seen, res) from by simp [dedupStep, hc]]
      rw [ih seen res hinv k]
      by_cases hk : key c = k
      · have hks : k ∈ seen := hk ▸ hc
        simp [hks]
      · simp [List.filter_cons, hk]
    · rw [show dedupStep key (seen, res) c = (key c :: seen, res ++ [c]) from by
        simp [dedupStep, hc]]
      have hinv2 : ∀ k2, k2 ∈ key c :: seen ↔ k2 ∈ (res ++ [c]).map key := by
        intro k2
        simp only [List.mem_cons, List.map_append, List.mem_append, hinv k2,
          List.map_cons, List.map_nil, List.mem_singleton]
        tauto
      rw [ih _ _ hinv2 k]
      by_cases hk : key c = k
      · subst hk
        simp [List.filter_append, List.filter_cons, hc]
      · have hmem : (k ∈ key c :: seen) ↔ (k ∈ seen) := by
          simp only [List.mem_cons]
          constructor
          · rintro (h1 | h1)
            · exact absurd h1.symm hk
            · exact h1
          · exact Or.inr
        simp [List.filter_append, List.filter_cons, hk, hmem]

/-- Records produced by a `dedupStep` fold come from the initial state
or from the candidate list. -/
theorem mem_foldl_dedupStep {α κ : Type} [DecidableEq κ] (key : α → κ) :
    ∀ (l : List α) (st : List κ × List α) (r : α),
      r ∈ (l.foldl (dedupStep key) st).2 → r ∈ st.2 ∨ r ∈ l := by
  intro l
  induction l with
  | nil => intro st r h; exact Or.inl h
  | cons c l ih =>
    intro st r h
    rw [List.foldl_cons] at h
    by_cases hc : key c ∈ st.1
    · rw [show dedupStep key st c = st from by simp [dedupStep, hc]] at h
      rcases ih st r h with h1 | h1
      · exact Or.inl h1
      · exact Or.inr (List.mem_cons_of_mem c h1)
    · rw [show dedupStep key st c = (key c :: st.1, st.2 ++ [c]) from by
        simp [dedupStep, hc]] at h
      rcases ih _ r h with h1 | h1
      · rcases List.mem_append.mp h1 with h2 | h2
        · exact Or.inl h2
        · exact Or.inr (List.mem_cons.mpr (Or.inl (List.mem_singleton.mp h2)))
      · exact Or.inr (List.mem_cons_of_mem c h1)

/-- Records produced by a `singleStep` fold come from the initial state
or are successful candidates of the family. -/
theorem mem_foldl_singleStep (cand : MatchData → Option DateRecord) :
    ∀ (ms : List MatchData) (st : List (ℤ × ℤ) × List DateRecord) (r : DateRecord),
      r ∈ (ms.foldl (singleStep cand) st).2 →
        r ∈ st.2 ∨ ∃ m, cand m = some r := by
  intro ms
  induction ms with
  | nil => intro st r h; exact Or.inl h
  | cons m ms ih =>
    intro st r h
    rw [List.foldl_cons] at h
    cases hm : cand m with
    | none =>
      rw [show singleStep cand st m = st from by simp [singleStep, hm]] at h
      exact ih st r h
    | some c =>
      by_cases hs : st.2.any (fun q => decide (q.start_year ≤ c.start_year) &&
          decide (c.start_year ≤ q.end_year))
      · rw [show singleStep cand st m = st from by simp [singleStep, hm, hs]] at h
        exact ih st r h
      · rw [show singleStep cand st m = (st.1, st.2 ++ [c]) from by
          simp only [singleStep, hm]
          rw [if_neg (by simpa using hs)]] at h
        rcases ih _ r h with h1 | h1
        · rcases List.mem_append.mp h1 with h2 | h2
          · exact Or.inl h2
          · exact Or.inr ⟨m, by rw [hm, List.mem_singleton.mp h2]⟩
        · exact Or.inr h1

/-- A `singleStep` fold only ever appends records. -/
theorem foldl_singleStep_append (cand : MatchData → Option DateRecord) :
    ∀ (ms : List MatchData) (st : List (ℤ × ℤ) × List DateRecord),
      ∃ l, (ms.foldl (singleStep cand) st).2 = st.2 ++ l := by
  intro ms
  induction ms with
  | nil => intro st; exact ⟨[], by simp⟩
  | cons m ms ih =>
    intro st
    rw [List.foldl_cons]
    cases hm : cand m with
    | none =>
      rw [show singleStep cand st m = st from by simp [singleStep, hm]]
      exact ih st
    | some c =>
      by_cases hs : st.2.any (fun q => decide (q.start_year ≤ c.start_year) &&
          decide (c.start_year ≤ q.end_year))
      · rw [show singleStep cand st m = st from by simp [singleStep, hm, hs]]
        exact ih st
      · rw [show singleStep cand st m = (st.1, st.2 ++ [c]) from by
          simp only [singleStep, hm]
          rw [if_neg (by simpa using hs)]]
        rcases ih (st.1, st.2 ++ [c]) with ⟨l, hl⟩
        exact ⟨c :: l, by simpa using hl⟩

/-- Function `extract_coordinates` is the first-occurrence-wins deduplication of
its candidate list. -/
theorem extract_coordinates_eq_dedup (text : String) (cw : Nat) :
    extract_coordinates text cw =
      ((coordCandidates text cw).foldl (dedupStep ckey) ([], [])).2 := by
  simp only [extract_coordinates, coordCandidates, foldl_candStep, List.foldl_append]

/-- The range phase of `extract_dates` is the first-occurrence-wins
deduplication of the range candidate list. -/
theorem datesPhase12_eq_dedup (text : String) (cw : Nat) :
    datesPhase12 text.data cw =
      (dateRangeCandidates text cw).foldl (dedupStep dkey) ([], []) := by
  simp only [datesPhase12, dateRangeCandidates, foldl_candStep, List.foldl_append]

/-! Facts about the per-match candidate builders. -/

/-- The modern-range swap orders its output. -/
theorem modern_normalize_le (s e : ℤ) :
    (modern_range_normalize s e).1 ≤ (modern_range_normalize s e).2 := by
  unfold modern_range_normalize
  split <;> omega

/-- The BCE swap puts the larger (chronologically earlier) BCE number
first. -/
theorem bce_normalize_max_min (s e : ℕ) :
    bce_range_normalize s e = (max s e, min s e) := by
  unfold bce_range_normalize
  split <;> rw [Prod.mk.injEq] <;> constructor <;> omega

/-- Records built by coordinate family 1 satisfy the bounds check. -/
theorem coordCand1_bounds {t : List Char} {cw : Nat} {m : MatchData}
    {r : CoordinateRecord} (h : coordCand1 t cw m = some r) :
    (-90 ≤ r.latitude ∧ r.latitude ≤ 90) ∧ (-180 ≤ r.longitude ∧ r.longitude ≤ 180) := by
  simp only [coordCand1] at h
  repeat' split at h
  all_goals try exact Option.noConfusion h
  all_goals
    rename_i hb
    injection h with h
    subst h
    exact ⟨⟨hb.1, hb.2.1⟩, hb.2.2⟩

/-- Records built by coordinate family 2 satisfy the bounds check. -/
theorem coordCand2_bounds {t : List Char} {cw : Nat} {m : MatchData}
    {r : CoordinateRecord} (h : coordCand2 t cw m = some r) :
    (-90 ≤ r.latitude ∧ r.latitude ≤ 90) ∧ (-180 ≤ r.longitude ∧ r.longitude ≤ 180) := by
  simp only [coordCand2] at h
  repeat' split at h
  all_goals try exact Option.noConfusion h
  all_goals
    rename_i hb
    injection h with h
    subst h
    exact ⟨⟨hb.1, hb.2.1⟩, hb.2.2⟩

/-- Records built by coordinate family 3 satisfy the bounds check. -/
theorem coordCand3_bounds {t : List Char} {cw : Nat} {m : MatchData}
    {r : CoordinateRecord} (h : coordCand3 t cw m = some r) :
    (-90 ≤ r.latitude ∧ r.latitude ≤ 90) ∧ (-180 ≤ r.longitude ∧ r.longitude ≤ 180) := by
  simp only [coordCand3] at h
  repeat' split at h
  all_goals try exact Option.noConfusion h
  all_goals
    rename_i hb
    injection h with h
    subst h
    exact ⟨⟨hb.1, hb.2.1⟩, hb.2.2⟩

/-- Date family 1 records are ordered. -/
theorem dateCand1_le {t : List Char} {cw : Nat} {m : MatchData} {r : DateRecord}
    (h : dateCand1 t cw m = some r) : r.start_year ≤ r.end_year := by
  simp only [dateCand1] at h
  repeat' split at h
  all_goals try exact Option.noConfusion h
  all_goals
    injection h with h
    subst h
    exact modern_normalize_le _ _

/-- Date family 2 records are ordered. -/
theorem dateCand2_le {t : List Char} {cw : Nat} {m : MatchData} {r : DateRecord}
    (h : dateCand2 t cw m = some r) : r.start_year ≤ r.end_year := by
  simp only [dateCand2] at h
  repeat' split at h
  all_goals try exact Option.noConfusion h
  all_goals
    rename_i s0 e0 hs he
    injection h with h
    subst h
    rw [show bce_range_normalize s0 e0 = (max s0 e0, min s0 e0) from
      bce_normalize_max_min s0 e0]
    show -((max s0 e0 : ℕ) : ℤ) ≤ -((min s0 e0 : ℕ) : ℤ)
    omega

/-- Date family 3 records are ordered (single year). -/
theorem dateCand3_le {t : List Char} {cw : Nat} {m : MatchData} {r : DateRecord}
    (h : dateCand3 t cw m = some r) : r.start_year ≤ r.end_year := by
  simp only [dateCand3] at h
  repeat' split at h
  all_goals try exact Option.noConfusion h
  all_goals
    injection h with h
    subst h
    exact le_refl _

/-- Date family 4 records are ordered (single year). -/
theorem dateCand4_le {t : List Char} {cw : Nat} {m : MatchData} {r : DateRecord}
    (h : dateCand4 t cw m = some r) : r.start_year ≤ r.end_year := by
  simp only [dateCand4] at h
  repeat' split at h
  all_goals try exact Option.noConfusion h
  all_goals
    injection h with h
    subst h
    exact le_refl _

/-- Date family 5 records are ordered (single year). -/
theorem dateCand5_le {t : List Char} {cw : Nat} {m : MatchData} {r : DateRecord}
    (h : dateCand5 t cw m = some r) : r.start_year ≤ r.end_year := by
  simp only [dateCand5] at h
  repeat' split at h
  all_goals try exact Option.noConfusion h
  all_goals
    injection h with h
    subst h
    exact le_refl _

/-- Every record of date family 2 negates its two parsed BCE numbers,
with the larger one as `start_year`, and labels them in the same order. -/
theorem dateCand2_shape {t : List Char} {cw : Nat} {m : MatchData} {r : DateRecord}
    (h : dateCand2 t cw m = some r) :
    ∃ s e : ℕ, r.start_year = -((max s e : ℕ) : ℤ) ∧
      r.end_year = -((min s e : ℕ) : ℤ) ∧
      r.label = toString (max s e) ++ "–" ++ toString (min s e) ++ " BCE" := by
  simp only [dateCand2] at h
  repeat' split at h
  all_goals try exact Option.noConfusion h
  all_goals
    rename_i s0 e0 hs he
    injection h with h
    subst h
    rw [show bce_range_normalize s0 e0 = (max s0 e0, min s0 e0) from
      bce_normalize_max_min s0 e0]
    exact ⟨s0, e0, rfl, rfl, rfl⟩

/-! Concrete scenario texts and their expected records. -/

/-- The scenario text of the specification's C1 test case. -/
def c1Text : String :=
  "Site 3: Mohenjo-daro is located at 27.325, 68.138. Excavated 2500-1900 BCE."

/-- The subsumption scenario document: a range followed by a contained
single-year mention. -/
def c4Text : String :=
  "the site was occupied 1998 to 2002. Later in 1999 a trench was opened."

/-- A minimal document with one BCE range. -/
def c5Text : String := "Occupied 2500-1900 BCE."

/-- A snippet whose site name is terminated by a period. -/
def c7Text : String := "Site 5: Dholavira."

/-- A document containing no coordinates, dates or site patterns. -/
def c8Text : String := "hello world."

/-- A document with two overlapping (but not equal) modern ranges. -/
def c10Text : String := "Excavations ran 1998-2002 and 1999-2001 at the site."

/-- The site record extracted from `c1Text`. -/
def c1Site : SiteRecord := ⟨"Site 3: Mohenjo-daro", "Site", c1Text⟩

/-- The coordinate record extracted from `c1Text`. -/
def c1Coord : CoordinateRecord :=
  ⟨Rat.divInt 27325 1000, Rat.divInt 68138 1000, c1Text, some "Site 3: Mohenjo-daro"⟩

/-- The BCE range record extracted from `c1Text`. -/
def c1DateA : DateRecord :=
  ⟨"2500–1900 BCE", -2500, -1900, c1Text, some "Site 3: Mohenjo-daro"⟩

/-- The bare-year record that pattern 5 extracts from the "1900" inside
"2500-1900 BCE" of `c1Text` (not subsumed: the BCE range is negative). -/
def c1DateB : DateRecord :=
  ⟨"1900", 1900, 1900, c1Text, some "Site 3: Mohenjo-daro"⟩

/-- The single range record extracted from `c4Text`. -/
def c4Rec : DateRecord := ⟨"1998-2002", 1998, 2002, c4Text, none⟩

/-- The BCE range record extracted from `c5Text`. -/
def c5Rec : DateRecord := ⟨"2500–1900 BCE", -2500, -1900, c5Text, none⟩

/-- The `re` match of `bce_range_pattern` on `c5Text`: span 9-22 with
group 1 = "2500" (offsets 9-13) and group 2 = "1900" (offsets 14-18). -/
def c5Match : MatchData := ⟨9, 22, [(2, 14), (1, 9)], [(2, 18), (1, 13)]⟩

/-- The two range records extracted from `c10Text`. -/
def c10RecA : DateRecord := ⟨"1998-2002", 1998, 2002, c10Text, none⟩

/-- The narrower second range record extracted from `c10Text`. -/
def c10RecB : DateRecord := ⟨"1999-2001", 1999, 2001, c10Text, none⟩

/-- Running `_ensure_full_text` a second time on the updated object
returns the same text and leaves the object unchanged. -/
theorem ensure_stable (p : PDFProcessor) :
    ensure_full_text (ensure_full_text p).2 = ensure_full_text p := by
  unfold ensure_full_text
  by_cases h : p.full_text = ""
  · simp only [h, if_true, if_pos]
    by_cases h2 : p.pdf_text = "" <;> simp [h2]
  · simp [h]

/-! The claims. -/

/-- C1 (amended): on the scenario text the Site Extractor yields exactly
the record "Site 3: Mohenjo-daro", the Coordinate Extractor exactly one
record with latitude 27.325 and longitude 68.138 whose site name is
inferred as "Site 3: Mohenjo-daro", and the Date Extractor yields the
BCE range record (start_year -2500, end_year -1900) followed by a
bare-year record for 1900 that pattern 5 reads out of "2500-1900" and
that the negative-year range does not subsume. -/
theorem claim_c1 :
    extract_sites c1Text = [c1Site] ∧
      extract_coordinates c1Text 100 = [c1Coord] ∧
      extract_dates c1Text 100 = [c1DateA, c1DateB] :=
  ⟨by decide, by decide, by decide⟩

/-- C1 counterexample: the date extractor returns two records on the
scenario text, not exactly one. -/
theorem claim_c1_counterexample : (extract_dates c1Text 100).length = 2 := by
  decide

/-- C2: every coordinate record returned by the coordinate extractor
lies within the legal latitude/longitude bounds; candidates outside them
are discarded by the bounds check and never reach the output. -/
theorem claim_c2 : ∀ (text : String) (cw : Nat) (r : CoordinateRecord),
    r ∈ extract_coordinates text cw →
    (-90 ≤ r.latitude ∧ r.latitude ≤ 90) ∧ (-180 ≤ r.longitude ∧ r.longitude ≤ 180) := by
  intro text cw r h
  rw [extract_coordinates_eq_dedup] at h
  rcases mem_foldl_dedupStep ckey _ _ r h with h1 | h1
  · exact absurd h1 (List.not_mem_nil r)
  · simp only [coordCandidates, List.mem_append, List.mem_filterMap] at h1
    rcases h1 with (⟨m, _, hm⟩ | ⟨m, _, hm⟩) | ⟨m, _, hm⟩
    · exact coordCand1_bounds hm
    · exact coordCand2_bounds hm
    · exact coordCand3_bounds hm

/-- C2 witness: the record extracted from `c1Text` is in the output and
satisfies the bounds. -/
theorem claim_c2_witness :
    c1Coord ∈ extract_coordinates c1Text 100 ∧
      (-90 ≤ c1Coord.latitude ∧ c1Coord.latitude ≤ 90) ∧
      (-180 ≤ c1Coord.longitude ∧ c1Coord.longitude ≤ 180) := by
  have hmem : c1Coord ∈ extract_coordinates c1Text 100 := by decide
  exact ⟨hmem, claim_c2 c1Text 100 c1Coord hmem⟩

/-- C3: every date record satisfies `start_year ≤ end_year`, and a
modern CE range given in descending order has its endpoints swapped. -/
theorem claim_c3 :
    (∀ (text : String) (cw : Nat) (r : DateRecord),
        r ∈ extract_dates text cw → r.start_year ≤ r.end_year) ∧
      (∀ s e : ℤ, s > e → modern_range_normalize s e = (e, s)) := by
  constructor
  · intro text cw r h
    simp only [extract_dates] at h
    rcases mem_foldl_singleStep _ _ _ _ h with h | ⟨m, hm⟩
    · rcases mem_foldl_singleStep _ _ _ _ h with h | ⟨m, hm⟩
      · rcases mem_foldl_singleStep _ _ _ _ h with h | ⟨m, hm⟩
        · rw [datesPhase12_eq_dedup] at h
          rcases mem_foldl_dedupStep dkey _ _ r h with h1 | h1
          · exact absurd h1 (List.not_mem_nil r)
          · simp only [dateRangeCandidates, List.mem_append, List.mem_filterMap] at h1
            rcases h1 with ⟨m, _, hm⟩ | ⟨m, _, hm⟩
            · exact dateCand1_le hm
            · exact dateCand2_le hm
        · exact dateCand3_le hm
      · exact dateCand4_le hm
    · exact dateCand5_le hm
  · intro s e hse
    simp [modern_range_normalize, hse]

/-- C3 witness: the BCE range record of `c5Text` is in the output and is
ordered; the descending pair (5, 3) is swapped. -/
theorem claim_c3_witness :
    (c5Rec ∈ extract_dates c5Text 100 ∧ c5Rec.start_year ≤ c5Rec.end_year) ∧
      ((5 : ℤ) > 3 ∧ modern_range_normalize 5 3 = (3, 5)) := by
  have hmem : c5Rec ∈ extract_dates c5Text 100 := by decide
  exact ⟨⟨hmem, claim_c3.1 c5Text 100 c5Rec hmem⟩,
    ⟨by decide, claim_c3.2 5 3 (by decide)⟩⟩

/-- C4: the subsumption scenario document yields exactly the 1998-2002
range record, even though the bare-year family matched the candidates
1998, 2002 and 1999 (all inside the already-collected range). -/
theorem claim_c4 :
    extract_dates c4Text 100 = [c4Rec] ∧
      (finditer year_pattern c4Text.data).map (fun m => groupD c4Text.data m 1) =
        ["1998".data, "2002".data, "1999".data] := by
  exact ⟨by decide, by decide⟩

/-- C5: the text "Occupied 2500-1900 BCE." produces the record with
start_year -2500 and end_year -1900; the BCE swap maps a captured pair
to (max, min); and every record of the BCE range family stores the
negated maximum as `start_year` and the negated minimum as `end_year`. -/
theorem claim_c5 :
    c5Rec ∈ extract_dates c5Text 100 ∧
      (∀ s e : ℕ, bce_range_normalize s e = (max s e, min s e)) ∧
      (∀ (t : List Char) (cw : Nat) (m : MatchData) (r : DateRecord),
        dateCand2 t cw m = some r →
          ∃ s e : ℕ, r.start_year = -((max s e : ℕ) : ℤ) ∧
            r.end_year = -((min s e : ℕ) : ℤ) ∧
            r.label = toString (max s e) ++ "–" ++ toString (min s e) ++ " BCE") :=
  ⟨by decide, bce_normalize_max_min, fun _ _ _ _ h => dateCand2_shape h⟩

/-- C5 witness: the concrete BCE range match of `c5Text` builds `c5Rec`
and instantiates the shape property. -/
theorem claim_c5_witness :
    dateCand2 c5Text.data 100 c5Match = some c5Rec ∧
      (∃ s e : ℕ, c5Rec.start_year = -((max s e : ℕ) : ℤ) ∧
        c5Rec.end_year = -((min s e : ℕ) : ℤ) ∧
        c5Rec.label = toString (max s e) ++ "–" ++ toString (min s e) ++ " BCE") := by
  have h : dateCand2 c5Text.data 100 c5Match = some c5Rec := by decide
  exact ⟨h, claim_c5.2.2 _ _ _ _ h⟩

/-- C6: for every rounded key, the coordinate extractor keeps exactly
the first bounds-passing candidate (in family-then-scan order) whose
`(round(lat, 6), round(lon, 6))` equals that key. -/
theorem claim_c6 : ∀ (text : String) (cw : Nat) (k : ℚ × ℚ),
    (extract_coordinates text cw).filter (fun r => decide (ckey r = k)) =
      ((coordCandidates text cw).filter (fun r => decide (ckey r = k))).take 1 := by
  intro text cw k
  rw [extract_coordinates_eq_dedup]
  have h := dedup_filter_take ckey (coordCandidates text cw) [] [] (by simp) k
  simpa using h

/-- C7 (amended): the inference helper tries four structural patterns in
the Site Extractor's priority order and returns the first match or null,
but its Site-number pattern only accepts comma, whitespace or
end-of-snippet as the name terminator (not a period, unlike the Site
Extractor); when the name is terminated by whitespace, as in `c1Text`,
it returns exactly the Site Extractor's formatted name. -/
theorem claim_c7 :
    extract_site_name_from_context c1Text.data = some "Site 3: Mohenjo-daro" ∧
      (extract_sites c1Text).map SiteRecord.site_name = ["Site 3: Mohenjo-daro"] :=
  ⟨by decide, by decide⟩

/-- C7 counterexample: on "Site 5: Dholavira." exactly one Site
Extractor pattern fires (the other families have no match) and produces
"Site 5: Dholavira", yet the inference helper returns null because its
Site pattern does not accept the period terminator. -/
theorem claim_c7_counterexample :
    extract_site_name_from_context c7Text.data = none ∧
      extract_sites c7Text = [⟨"Site 5: Dholavira", "Site", c7Text⟩] ∧
      finditer site_pattern2 c7Text.data = [] ∧
      finditer trench_pattern c7Text.data = [] ∧
      finditer locus_pattern c7Text.data = [] ∧
      finditer mound_pattern c7Text.data = [] :=
  ⟨by decide, by decide, by decide, by decide, by decide, by decide⟩

/-- C8: a match whose candidate fails (malformed capture, bounds reject
or guard) is skipped, leaving the loop state unchanged while scanning
continues, and a text without matches yields empty lists from all three
extractors (the extractors are total functions and never raise). -/
theorem claim_c8 :
    (∀ (t : List Char) (cw : Nat) (st : List (ℚ × ℚ) × List CoordinateRecord)
        (m : MatchData), coordCand1 t cw m = none →
        candStep ckey (coordCand1 t cw) st m = st) ∧
    (∀ (t : List Char) (cw : Nat) (st : List (ℚ × ℚ) × List CoordinateRecord)
        (m : MatchData), coordCand2 t cw m = none →
        candStep ckey (coordCand2 t cw) st m = st) ∧
    (∀ (t : List Char) (cw : Nat) (st : List (ℚ × ℚ) × List CoordinateRecord)
        (m : MatchData), coordCand3 t cw m = none →
        candStep ckey (coordCand3 t cw) st m = st) ∧
    (∀ (t : List Char) (cw : Nat) (st : List (ℤ × ℤ) × List DateRecord)
        (m : MatchData), dateCand1 t cw m = none →
        candStep dkey (dateCand1 t cw) st m = st) ∧
    (∀ (t : List Char) (cw : Nat) (st : List (ℤ × ℤ) × List DateRecord)
        (m : MatchData), dateCand2 t cw m = none →
        candStep dkey (dateCand2 t cw) st m = st) ∧
    (∀ (t : List Char) (cw : Nat) (st : List (ℤ × ℤ) × List DateRecord)
        (m : MatchData), dateCand3 t cw m = none →
        singleStep (dateCand3 t cw) st m = st) ∧
    (∀ (t : List Char) (cw : Nat) (st : List (ℤ × ℤ) × List DateRecord)
        (m : MatchData), dateCand4 t cw m = none →
        singleStep (dateCand4 t cw) st m = st) ∧
    (∀ (t : List Char) (cw : Nat) (st : List (ℤ × ℤ) × List DateRecord)
        (m : MatchData), dateCand5 t cw m = none →
        singleStep (dateCand5 t cw) st m = st) ∧
    extract_coordinates c8Text 100 = [] ∧
    extract_dates c8Text 100 = [] ∧
    extract_sites c8Text = [] := by
  refine ⟨?_, ?_, ?_, ?_, ?_, ?_, ?_, ?_, by decide, by decide, by decide⟩ <;>
    { intro t cw st m h
      first
      | simp [candStep, h]
      | simp [singleStep, h] }

/-- C8 witness: a match with no captures is skipped by every family. -/
theorem claim_c8_witness :
    candStep ckey (coordCand1 [] 100) ([], []) ⟨0, 0, [], []⟩ = ([], []) ∧
      candStep ckey (coordCand2 [] 100) ([], []) ⟨0, 0, [], []⟩ = ([], []) ∧
      candStep ckey (coordCand3 [] 100) ([], []) ⟨0, 0, [], []⟩ = ([], []) ∧
      candStep dkey (dateCand1 [] 100) ([], []) ⟨0, 0, [], []⟩ = ([], []) ∧
      candStep dkey (dateCand2 [] 100) ([], []) ⟨0, 0, [], []⟩ = ([], []) ∧
      singleStep (dateCand3 [] 100) ([], []) ⟨0, 0, [], []⟩ = ([], []) ∧
      singleStep (dateCand4 [] 100) ([], []) ⟨0, 0, [], []⟩ = ([], []) ∧
      singleStep (dateCand5 [] 100) ([], []) ⟨0, 0, [], []⟩ = ([], []) :=
  ⟨claim_c8.1 _ _ _ _ (by decide), claim_c8.2.1 _ _ _ _ (by decide),
   claim_c8.2.2.1 _ _ _ _ (by decide), claim_c8.2.2.2.1 _ _ _ _ (by decide),
   claim_c8.2.2.2.2.1 _ _ _ _ (by decide), claim_c8.2.2.2.2.2.1 _ _ _ _ (by decide),
   claim_c8.2.2.2.2.2.2.1 _ _ _ _ (by decide),
   claim_c8.2.2.2.2.2.2.2.1 _ _ _ _ (by decide)⟩

/-- C9: each extractor method is deterministic in the processor state:
calling it twice in sequence (same window size) returns the same record
list both times; the only mutation is the `full_text` cache, which does
not change the result. -/
theorem claim_c9 : ∀ (p : PDFProcessor) (cw : Nat),
    (extract_coordinates_st p cw).1 =
      (extract_coordinates_st (extract_coordinates_st p cw).2 cw).1 ∧
    (extract_dates_st p cw).1 = (extract_dates_st (extract_dates_st p cw).2 cw).1 ∧
    (extract_sites_st p).1 = (extract_sites_st (extract_sites_st p).2).1 := by
  intro p cw
  refine ⟨?_, ?_, ?_⟩ <;>
    simp only [extract_coordinates_st, extract_dates_st, extract_sites_st,
      ensure_stable]

/-- C10: range records are deduplicated solely by exact pair equality
(for every pair key, the range phase keeps exactly the first candidate
with that key and never drops a strictly narrower range), the later
single-year families only append records, and the document with
"1998-2002" and the strictly narrower "1999-2001" yields both records. -/
theorem claim_c10 :
    (∀ (text : String) (cw : Nat) (k : ℤ × ℤ),
        ((datesPhase12 text.data cw).2).filter (fun r => decide (dkey r = k)) =
          ((dateRangeCandidates text cw).filter (fun r => decide (dkey r = k))).take 1) ∧
      (∀ (text : String) (cw : Nat),
        ∃ l, extract_dates text cw = (datesPhase12 text.data cw).2 ++ l) ∧
      extract_dates c10Text 100 = [c10RecA, c10RecB] := by
  refine ⟨?_, ?_, by decide⟩
  · intro text cw k
    rw [datesPhase12_eq_dedup]
    have h := dedup_filter_take dkey (dateRangeCandidates text cw) [] [] (by simp) k
    simpa using h
  · intro text cw
    simp only [extract_dates]
    obtain ⟨l3, h3⟩ := foldl_singleStep_append (dateCand3 text.data cw)
      (finditer bce_single_pattern text.data) (datesPhase12 text.data cw)
    obtain ⟨l4, h4⟩ := foldl_singleStep_append (dateCand4 text.data cw)
      (finditer contextual_date_pattern text.data)
      ((finditer bce_single_pattern text.data).foldl
        (singleStep (dateCand3 text.data cw)) (datesPhase12 text.data cw))
    obtain ⟨l5, h5⟩ := foldl_singleStep_append (dateCand5 text.data cw)
      (finditer year_pattern text.data)
      ((finditer contextual_date_pattern text.data).foldl
        (singleStep (dateCand4 text.data cw))
        ((finditer bce_single_pattern text.data).foldl
          (singleStep (dateCand3 text.data cw)) (datesPhase12 text.data cw)))
    refine ⟨l3 ++ l4 ++ l5, ?_⟩
    rw [h5, h4, h3]
    simp [List.append_assoc]

end ArchRag
